import Mathlib

/-!
Shallow embedding of the notebook/cell state core of the
interactive-model-workbench repository: the Zustand store
(`src/store/notebookStore.ts`), the type definitions (`src/types/index.ts`),
and the relevant UI coordinator handlers (`handleCreateNotebook` in
`NotebookSidebar.tsx`, `handleRunCell` in the Cell component).

Modelling conventions:
* `new Date()` timestamps are modelled as explicit `Nat` arguments (`now`).
* `generateId()` (random id generation) is modelled by explicit `String`
  arguments supplying the freshly generated ids.
* A JavaScript array typed `Cell[]` is modelled as `List (Option Cell)`:
  TypeScript's type for `const [removed] = cells.splice(fromIndex, 1)` hides
  that `removed` can be `undefined` at runtime, and `reorderCells` can splice
  that `undefined` back into the array.  `none` represents such a runtime
  `undefined` hole; every store operation other than `reorderCells` only ever
  writes `some`-entries.
* A JavaScript callback such as `cell => cell.id !== cellId` evaluates
  `cell.id` and therefore throws a `TypeError` when it meets an `undefined`
  array entry; operations that traverse the cell array with such callbacks
  are embedded in `Except JsError`.
* The nondeterministic backend (`apiService.updateCell` / `executeCell`,
  absent from the sources; only its resolve-or-reject outcome matters to the
  coordinator) is abstracted by a `backendOk : Bool` argument.
-/

namespace Workbench

/-- `'code' | 'markdown'` from `src/types/index.ts`. -/
inductive CellType where
  | code
  | markdown
deriving DecidableEq, Repr

/-- `'idle' | 'running' | 'completed' | 'error'` from `src/types/index.ts`. -/
inductive CellStatus where
  | idle
  | running
  | completed
  | error
deriving DecidableEq, Repr

/-- `'stream' | 'display_data' | 'execute_result' | 'error'`. -/
inductive OutputType where
  | stream
  | display_data
  | execute_result
  | error
deriving DecidableEq, Repr

/-- `'idle' | 'starting' | 'busy' | 'dead'`. -/
inductive KernelStatus where
  | idle
  | starting
  | busy
  | dead
deriving DecidableEq, Repr

/-- A JavaScript `string | object` / `any` payload carried by outputs. -/
inductive Payload where
  | str (s : String)
  | obj (fields : List (String × String))
deriving DecidableEq, Repr

/-- `interface CellOutput` from `src/types/index.ts`. -/
structure CellOutput where
  id : String
  type : OutputType
  content : Payload
  timestamp : Nat
deriving DecidableEq, Repr

/-- `interface Cell` from `src/types/index.ts`. -/
structure Cell where
  id : String
  type : CellType
  content : String
  output : List CellOutput
  status : CellStatus
  executionCount : Option Nat
  metadata : Option (List (String × String))
deriving DecidableEq, Repr

/-- `interface Notebook` from `src/types/index.ts`.  The `cells` array is a
runtime JavaScript array: `none` entries model `undefined` holes that the
declared `Cell[]` type cannot exclude (see `jsReorder`). -/
structure Notebook where
  id : String
  name : String
  cells : List (Option Cell)
  createdAt : Nat
  updatedAt : Nat
  kernelId : Option String
  kernelStatus : KernelStatus
deriving DecidableEq, Repr

/-- `interface WebSocketMessage` from `src/types/index.ts`. -/
structure WebSocketMessage where
  type : OutputType
  content : Payload
  cellId : String
  timestamp : Nat
deriving DecidableEq, Repr

/-- `interface NotebookState` from `src/store/notebookStore.ts`.  The
`webSocketConnections` map holds opaque `WebSocket` handles, modelled by
`Nat` tokens. -/
structure NotebookState where
  notebooks : List Notebook
  activeNotebookId : Option String
  activeCellId : Option String
  webSocketConnections : List (String × Nat)
  isLoading : Bool
  error : Option String
deriving DecidableEq, Repr

/-- The initial state of the store (lines 60–66 of the store). -/
def initialState : NotebookState :=
  { notebooks := []
    activeNotebookId := none
    activeCellId := none
    webSocketConnections := []
    isLoading := false
    error := none }

/-- A JavaScript `TypeError`, thrown when a property such as `.id` is read
from `undefined`. -/
inductive JsError where
  | typeError
deriving DecidableEq, Repr

deriving instance DecidableEq for Except

/-- JavaScript `s || null` on a string: the empty string is falsy. -/
def strOrNull (s : String) : Option String :=
  if s = "" then none else some s

/-- JavaScript `e || null` on a `string | undefined` expression. -/
def jsOrNull (o : Option String) : Option String :=
  o.bind strOrNull

/-- JavaScript `cells[0]?.id` on a runtime cell array: out-of-bounds access
and an `undefined` entry both produce `undefined`. -/
def firstCellId (cells : List (Option Cell)) : Option String :=
  (cells.head?.bind id).map Cell.id

/-- `newNotebooks.find(nb => nb.id === aid)?.cells[0]?.id || null`
(line 96 of the store). -/
def firstCellIdIn (nbs : List Notebook) (aid : String) : Option String :=
  jsOrNull ((nbs.find? (fun nb => nb.id == aid)).bind (fun nb => firstCellId nb.cells))

/-- JavaScript `Array.prototype.filter` over a runtime cell array with a
callback that reads `cell.id`: an `undefined` entry raises a `TypeError`. -/
def jsFilterCells (p : Cell → Bool) : List (Option Cell) → Except JsError (List (Option Cell))
  | [] => .ok []
  | none :: _ => .error .typeError
  | some c :: rest =>
      (jsFilterCells p rest).map (fun r => if p c then some c :: r else r)

/-- JavaScript `Array.prototype.map` over a runtime cell array with a
callback that reads `cell.id`: an `undefined` entry raises a `TypeError`. -/
def jsMapCells (f : Cell → Cell) : List (Option Cell) → Except JsError (List (Option Cell))
  | [] => .ok []
  | none :: _ => .error .typeError
  | some c :: rest =>
      (jsMapCells f rest).map (fun r => some (f c) :: r)

/-- JavaScript `Array.prototype.find` over a runtime cell array with a
callback that reads `cell.id`. -/
def jsFindCell (p : Cell → Bool) : List (Option Cell) → Except JsError (Option Cell)
  | [] => .ok none
  | none :: _ => .error .typeError
  | some c :: rest =>
      if p c then .ok (some c) else jsFindCell p rest

/-- `state.notebooks.map f` where `f` may throw while traversing a
notebook's cell array. -/
def mapNotebooksM (f : Notebook → Except JsError Notebook) : List Notebook → Except JsError (List Notebook)
  | [] => .ok []
  | nb :: rest => do
      let nb' ← f nb
      let rest' ← mapNotebooksM f rest
      pure (nb' :: rest')

/-- `createDefaultCell` (store lines 48–55). -/
def createDefaultCell (cid : String) : Cell :=
  { id := cid
    type := .code
    content := ""
    output := []
    status := .idle
    executionCount := none
    metadata := none }

/-- `createNotebook` (store lines 69–84).  `nbId` and `cellDefId` stand for
the two `generateId()` calls, `now` for `new Date()`. -/
def createNotebook (st : NotebookState) (name : String) (nbId cellDefId : String) (now : Nat) : NotebookState :=
  let newNotebook : Notebook :=
    { id := nbId
      name := name
      cells := [some (createDefaultCell cellDefId)]
      createdAt := now
      updatedAt := now
      kernelId := none
      kernelStatus := .idle }
  { st with
    notebooks := st.notebooks ++ [newNotebook]
    activeNotebookId := some newNotebook.id
    activeCellId := jsOrNull (firstCellId newNotebook.cells) }

/-- `deleteNotebook` (store lines 86–99). -/
def deleteNotebook (st : NotebookState) (id : String) : NotebookState :=
  let newNotebooks := st.notebooks.filter (fun nb => nb.id != id)
  let newActiveNotebookId : Option String :=
    if st.activeNotebookId = some id then jsOrNull ((newNotebooks.head?).map Notebook.id)
    else st.activeNotebookId
  { st with
    notebooks := newNotebooks
    activeNotebookId := newActiveNotebookId
    activeCellId :=
      match newActiveNotebookId with
      | some aid => if aid = "" then none else firstCellIdIn newNotebooks aid
      | none => none }

/-- `setActiveNotebook` (store lines 109–111): a blind pointer write. -/
def setActiveNotebook (st : NotebookState) (id : String) : NotebookState :=
  { st with activeNotebookId := some id }

/-- `Partial<Cell>` — the update record accepted by `updateCell`; a `none`
field is absent from the JavaScript object literal. -/
structure CellUpdates where
  id : Option String := none
  type : Option CellType := none
  content : Option String := none
  output : Option (List CellOutput) := none
  status : Option CellStatus := none
  executionCount : Option (Option Nat) := none
  metadata : Option (Option (List (String × String))) := none
deriving DecidableEq, Repr

/-- JavaScript object spread `{ ...cell, ...updates }`. -/
def applyCellUpdates (c : Cell) (u : CellUpdates) : Cell :=
  { id := u.id.getD c.id
    type := u.type.getD c.type
    content := u.content.getD c.content
    output := u.output.getD c.output
    status := u.status.getD c.status
    executionCount := u.executionCount.getD c.executionCount
    metadata := u.metadata.getD c.metadata }

/-- `deleteCell` (store lines 126–138).  Note: it never touches
`activeCellId`. -/
def deleteCell (st : NotebookState) (notebookId cellId : String) (now : Nat) : Except JsError NotebookState :=
  (mapNotebooksM (fun nb =>
    if nb.id = notebookId then
      (jsFilterCells (fun c => c.id != cellId) nb.cells).map
        (fun cs => { nb with cells := cs, updatedAt := now })
    else .ok nb) st.notebooks).map
    (fun nbs => { st with notebooks := nbs })

/-- `updateCell` (store lines 140–154). -/
def updateCell (st : NotebookState) (notebookId cellId : String) (u : CellUpdates) (now : Nat) : Except JsError NotebookState :=
  (mapNotebooksM (fun nb =>
    if nb.id = notebookId then
      (jsMapCells (fun c => if c.id = cellId then applyCellUpdates c u else c) nb.cells).map
        (fun cs => { nb with cells := cs, updatedAt := now })
    else .ok nb) st.notebooks).map
    (fun nbs => { st with notebooks := nbs })

/-- The state transformation `updateCell` performs (modulo `TypeError` on
corrupted arrays): apply `g` to every cell of the named notebook and bump
its `updatedAt`. -/
def updateCellState (st : NotebookState) (notebookId : String) (g : Cell → Cell) (now : Nat) : NotebookState :=
  { st with notebooks := st.notebooks.map (fun nb =>
      if nb.id = notebookId then
        { nb with cells := nb.cells.map (Option.map g), updatedAt := now }
      else nb) }

/-- The cell-array computation inside `reorderCells` (store lines 162–167):
`const cells = [...nb.cells]; const [removed] = cells.splice(fromIndex, 1);
cells.splice(toIndex, 0, removed); return cells;`.  With `fromIndex` out of
range the first splice removes nothing, `removed` is `undefined`, and the
second splice inserts that `undefined` into the array. -/
def jsReorder (cells : List (Option Cell)) (fromIndex toIndex : Nat) : List (Option Cell) :=
  let removed : Option Cell := cells[fromIndex]?.bind id
  let rest := cells.take fromIndex ++ cells.drop (fromIndex + 1)
  rest.take toIndex ++ removed :: rest.drop toIndex

/-- `reorderCells` (store lines 156–173). -/
def reorderCells (st : NotebookState) (notebookId : String) (fromIndex toIndex : Nat) (now : Nat) : NotebookState :=
  { st with
    notebooks := st.notebooks.map (fun nb =>
      if nb.id = notebookId then
        { nb with cells := jsReorder nb.cells fromIndex toIndex, updatedAt := now }
      else nb) }

/-- `updateCellOutput` (store lines 196–221): the cell's output array is
overwritten with a one-element array built from the arriving message;
`freshId` stands for the `generateId()` call.  `updatedAt` is not touched. -/
def updateCellOutput (st : NotebookState) (notebookId cellId : String) (msg : WebSocketMessage) (freshId : String) : Except JsError NotebookState :=
  (mapNotebooksM (fun nb =>
    if nb.id = notebookId then
      (jsMapCells (fun c =>
        if c.id = cellId then
          { c with output := [{ id := freshId, type := msg.type, content := msg.content, timestamp := msg.timestamp }] }
        else c) nb.cells).map
        (fun cs => { nb with cells := cs })
    else .ok nb) st.notebooks).map
    (fun nbs => { st with notebooks := nbs })

/-- `getActiveNotebook` (store lines 228–231). -/
def getActiveNotebook (st : NotebookState) : Option Notebook :=
  match st.activeNotebookId with
  | some aid => st.notebooks.find? (fun nb => nb.id == aid)
  | none => none

/-- `getActiveCell` (store lines 233–238): returns `null` when there is no
active notebook or no (truthy) active cell id, otherwise searches the active
notebook's cell array. -/
def getActiveCell (st : NotebookState) : Except JsError (Option Cell) :=
  match getActiveNotebook st, st.activeCellId with
  | some nb, some cid =>
      if cid = "" then .ok none else jsFindCell (fun c => c.id == cid) nb.cells
  | _, _ => .ok none

/-- JavaScript `String.prototype.trim`: strip leading and trailing
whitespace.  (An executable re-implementation; Lean's own `String.trim`
is built on `Substring` functions that the kernel cannot evaluate.) -/
def jsTrim (s : String) : String :=
  ⟨((s.data.dropWhile Char.isWhitespace).reverse.dropWhile Char.isWhitespace).reverse⟩

/-- `handleCreateNotebook` (`NotebookSidebar.tsx` lines 16–22): the store's
`createNotebook` is invoked with the trimmed name only when the trimmed
input is non-empty (truthy); otherwise nothing happens. -/
def handleCreateNotebook (st : NotebookState) (newNotebookName : String) (nbId cellDefId : String) (now : Nat) : NotebookState :=
  if jsTrim newNotebookName ≠ "" then createNotebook st (jsTrim newNotebookName) nbId cellDefId now
  else st

/-- The `Partial<Cell>` literal `{ status: 'running', output: [] }` passed by
`handleRunCell` before the backend round trip. -/
def runningUpdates : CellUpdates :=
  { output := some [], status := some .running }

/-- `handleRunCell` (Cell component, lines 179–219 of the concatenated
`NotebookSidebar.tsx` source file).  `cell` is the component's `cell` prop
captured at render time, `localContent` the local editing buffer.
`backendOk` abstracts whether the awaited `apiService.updateCell` /
`apiService.executeCell` calls both resolve (`true`) or one rejects
(`false`); a rejection is caught and converted to a `status: 'error'`
mutation, nothing is re-thrown.  `now1`/`now2` are the `new Date()` values
of the two store mutations. -/
def handleRunCell (st : NotebookState) (notebookId : String) (cell : Cell) (localContent : String) (backendOk : Bool) (now1 now2 : Nat) : Except JsError NotebookState :=
  if jsTrim localContent = "" then .ok st
  else do
    let st1 ← updateCell st notebookId cell.id runningUpdates now1
    if backendOk then
      updateCell st1 notebookId cell.id
        { status := some .completed
          executionCount := some (some (cell.executionCount.getD 0 + 1)) } now2
    else
      updateCell st1 notebookId cell.id { status := some .error } now2

/-- Spec-side description of a valid reorder, for comparison with
`jsReorder`: remove the element at `fromIndex` and reinsert it at `toIndex`
computed against the sequence after removal ("splice-out-then-splice-in");
out-of-range `fromIndex` is left as the identity here because the spec
declares it an error case. -/
def specReorder (l : List Cell) (fromIndex toIndex : Nat) : List Cell :=
  match l[fromIndex]? with
  | some x =>
      let rest := l.take fromIndex ++ l.drop (fromIndex + 1)
      rest.take toIndex ++ x :: rest.drop toIndex
  | none => l

/-! ### Concrete fixtures used to evaluate the operations on explicit
inputs. -/

/-- A fresh idle code cell with the given id and content. -/
def mkCell (i s : String) : Cell :=
  { id := i
    type := .code
    content := s
    output := []
    status := .idle
    executionCount := none
    metadata := none }

/-- A notebook over a hole-free cell list. -/
def mkNotebook (i n : String) (cs : List Cell) : Notebook :=
  { id := i
    name := n
    cells := cs.map some
    createdAt := 0
    updatedAt := 0
    kernelId := none
    kernelStatus := .idle }

/-- A store state with no connections, not loading, no error. -/
def mkState (nbs : List Notebook) (a c : Option String) : NotebookState :=
  { notebooks := nbs
    activeNotebookId := a
    activeCellId := c
    webSocketConnections := []
    isLoading := false
    error := none }

def cellA : Cell := mkCell "cA" "a"

def cellB : Cell := mkCell "cB" "b"

def cellC : Cell := mkCell "cC" "c"

def cellD : Cell := mkCell "cD" "d"

def nbFour : Notebook := mkNotebook "nb1" "First" [cellA, cellB, cellC, cellD]

def stFour : NotebookState := mkState [nbFour] (some "nb1") (some "cA")

def cellOut1 : CellOutput := { id := "o1", type := .stream, content := .str "old1", timestamp := 1 }

def cellOut2 : CellOutput := { id := "o2", type := .stream, content := .str "old2", timestamp := 2 }

def cellWithOutputs : Cell :=
  { mkCell "c2" "x=1" with output := [cellOut1, cellOut2], status := .completed, executionCount := some 2 }

def nbOut : Notebook := mkNotebook "nb2" "Out" [cellWithOutputs]

def stOut : NotebookState := mkState [nbOut] (some "nb2") (some "c2")

def msgNew : WebSocketMessage :=
  { type := .execute_result, content := .str "42", cellId := "c2", timestamp := 9 }

/-- The state expected after `updateCellOutput stOut "nb2" "c2" msgNew "o9"`. -/
def stOutAfter : NotebookState :=
  mkState
    [mkNotebook "nb2" "Out"
      [{ cellWithOutputs with
          output := [{ id := "o9", type := .execute_result, content := .str "42", timestamp := 9 }] }]]
    (some "nb2") (some "c2")

def runCell : Cell := mkCell "c1" "print(1)"

def nbRun : Notebook := mkNotebook "n1" "Run" [runCell]

def stRun : NotebookState := mkState [nbRun] (some "n1") (some "c1")

/-- Expected final state of a successful run of `runCell`. -/
def stRunDone : NotebookState :=
  mkState
    [{ nbRun with
        cells := [some { runCell with output := [], status := .completed, executionCount := some 1 }]
        updatedAt := 2 }]
    (some "n1") (some "c1")

/-- Expected final state of a failed run of `runCell`. -/
def stRunErr : NotebookState :=
  mkState
    [{ nbRun with
        cells := [some { runCell with output := [], status := .error }]
        updatedAt := 2 }]
    (some "n1") (some "c1")

def nbSolo : Notebook := mkNotebook "a" "Solo" [mkCell "s1" ""]

/-- A reachable state whose active pointer already dangles (producible via
`setActiveNotebook "ghost"`, which performs no existence check). -/
def stGhost : NotebookState := mkState [nbSolo] (some "ghost") none

def nbW1 : Notebook := mkNotebook "w1" "W1" [mkCell "wc1" ""]

def nbW2 : Notebook := mkNotebook "w2" "W2" [mkCell "wc2" ""]

def stTwo : NotebookState := mkState [nbW1, nbW2] (some "w1") (some "wc1")

def nbDel : Notebook := mkNotebook "n5" "Del" [mkCell "c5" "z"]

def stDel : NotebookState := mkState [nbDel] (some "n5") (some "c5")

/-- The state expected after `deleteCell stDel "n5" "c5" 7`. -/
def stDelAfter : NotebookState :=
  mkState [{ nbDel with cells := [], updatedAt := 7 }] (some "n5") (some "c5")

def nbOne : Notebook := mkNotebook "n6" "One" [mkCell "c6" "q"]

def stOne : NotebookState := mkState [nbOne] (some "n6") (some "c6")

/-- The corrupted state actually produced by `reorderCells stOne "n6" 1 0 9`:
the single-cell array has grown an `undefined` hole. -/
def stOneCorrupt : NotebookState :=
  mkState [{ nbOne with cells := [none, some (mkCell "c6" "q")], updatedAt := 9 }]
    (some "n6") (some "c6")

def nbTen : Notebook := mkNotebook "a10" "T" [mkCell "x1" "", mkCell "x2" ""]

def stTen : NotebookState := mkState [nbTen] (some "a10") (some "x2")

/-! ### Workhorse lemmas: behaviour of the JavaScript array embeddings on
well-formed (hole-free) cell arrays. -/

theorem jsMapCells_map_some (f : Cell → Cell) (cs : List Cell) :
    jsMapCells f (cs.map some) = .ok ((cs.map f).map some) := by
  induction cs with
  | nil => rfl
  | cons c rest ih =>
      show (jsMapCells f (rest.map some)).map _ = _
      rw [ih]
      rfl

theorem jsFilterCells_map_some (p : Cell → Bool) (cs : List Cell) :
    jsFilterCells p (cs.map some) = .ok ((cs.filter p).map some) := by
  induction cs with
  | nil => rfl
  | cons c rest ih =>
      show (jsFilterCells p (rest.map some)).map _ = _
      rw [ih]
      by_cases h : p c <;> simp [List.filter_cons, h, Except.map]

theorem jsFindCell_map_some (p : Cell → Bool) (cs : List Cell) :
    jsFindCell p (cs.map some) = .ok (cs.find? p) := by
  induction cs with
  | nil => rfl
  | cons c rest ih =>
      by_cases h : p c <;> simp [jsFindCell, List.find?_cons, h, ih]

theorem mapNotebooksM_ok (f : Notebook → Except JsError Notebook) (g : Notebook → Notebook)
    (nbs : List Notebook) (h : ∀ nb ∈ nbs, f nb = .ok (g nb)) :
    mapNotebooksM f nbs = .ok (nbs.map g) := by
  induction nbs with
  | nil => rfl
  | cons nb rest ih =>
      have h2 : ∀ x ∈ rest, f x = .ok (g x) := fun x hx => h x (List.mem_cons_of_mem nb hx)
      show (do
        let nb' ← f nb
        let rest' ← mapNotebooksM f rest
        pure (nb' :: rest') : Except JsError (List Notebook)) = _
      rw [h nb (List.mem_cons_self nb rest), ih h2]
      rfl

theorem map_id_of_forall {α : Type _} (l : List α) (f : α → α) (h : ∀ x ∈ l, f x = x) :
    l.map f = l := by
  induction l with
  | nil => rfl
  | cons a l ih =>
      simp only [List.map_cons, h a (List.mem_cons_self a l),
        ih (fun x hx => h x (List.mem_cons_of_mem a hx))]

theorem updateCell_ok (st : NotebookState) (notebookId cellId : String) (u : CellUpdates) (now : Nat)
    (hwf : ∀ nb ∈ st.notebooks, nb.id = notebookId → ∃ cs : List Cell, nb.cells = cs.map some) :
    updateCell st notebookId cellId u now =
      .ok (updateCellState st notebookId
        (fun c => if c.id = cellId then applyCellUpdates c u else c) now) := by
  unfold updateCell updateCellState
  rw [mapNotebooksM_ok _ (fun nb =>
    if nb.id = notebookId then
      { nb with
        cells := nb.cells.map (Option.map (fun c => if c.id = cellId then applyCellUpdates c u else c))
        updatedAt := now }
    else nb)]
  · rfl
  · intro nb hnb
    by_cases hid : nb.id = notebookId
    · obtain ⟨cs, hcs⟩ := hwf nb hnb hid
      simp [hid, hcs, jsMapCells_map_some, Except.map, List.map_map, Function.comp_def]
    · simp [hid]

/-- `updateCellState` preserves the no-holes well-formedness of cell
arrays. -/
theorem updateCellState_wf (st : NotebookState) (notebookId : String) (g : Cell → Cell) (now : Nat)
    (hwf : ∀ nb ∈ st.notebooks, nb.id = notebookId → ∃ cs : List Cell, nb.cells = cs.map some) :
    ∀ nb ∈ (updateCellState st notebookId g now).notebooks, nb.id = notebookId →
      ∃ cs : List Cell, nb.cells = cs.map some := by
  intro nb' hnb' hid'
  simp only [updateCellState, List.mem_map] at hnb'
  obtain ⟨nb, hnb, rfl⟩ := hnb'
  by_cases hid : nb.id = notebookId
  · obtain ⟨cs, hcs⟩ := hwf nb hnb hid
    refine ⟨cs.map g, ?_⟩
    simp [hid, hcs, List.map_map, Function.comp_def]
  · rw [if_neg hid] at hid'
    exact (hid hid').elim

/-- Two successive `updateCellState` passes over the same notebook fuse. -/
theorem updateCellState_comp (st : NotebookState) (notebookId : String)
    (g1 g2 : Cell → Cell) (now1 now2 : Nat) :
    updateCellState (updateCellState st notebookId g1 now1) notebookId g2 now2
      = updateCellState st notebookId (fun c => g2 (g1 c)) now2 := by
  show ({ st with notebooks := (st.notebooks.map (fun nb =>
      if nb.id = notebookId then
        { nb with cells := nb.cells.map (Option.map g1), updatedAt := now1 }
      else nb)).map (fun nb =>
      if nb.id = notebookId then
        { nb with cells := nb.cells.map (Option.map g2), updatedAt := now2 }
      else nb) } : NotebookState)
    = { st with notebooks := st.notebooks.map (fun nb =>
        if nb.id = notebookId then
          { nb with cells := nb.cells.map (Option.map (fun c => g2 (g1 c))), updatedAt := now2 }
        else nb) }
  rw [List.map_map]
  congr 1
  apply List.map_eq_map_iff.mpr
  intro nb _
  simp only [Function.comp_apply]
  by_cases hid : nb.id = notebookId
  · simp only [if_pos hid]
    simp only [List.map_map]
    congr 1
    apply List.map_eq_map_iff.mpr
    intro oc _
    cases oc <;> rfl
  · simp only [if_neg hid]

theorem updateCellOutput_ok (st : NotebookState) (notebookId cellId : String)
    (msg : WebSocketMessage) (freshId : String)
    (hwf : ∀ nb ∈ st.notebooks, nb.id = notebookId → ∃ cs : List Cell, nb.cells = cs.map some) :
    updateCellOutput st notebookId cellId msg freshId =
      .ok { st with notebooks := st.notebooks.map (fun nb =>
        if nb.id = notebookId then
          { nb with cells := nb.cells.map (Option.map (fun c =>
            if c.id = cellId then
              { c with output := [{ id := freshId, type := msg.type, content := msg.content, timestamp := msg.timestamp }] }
            else c)) }
        else nb) } := by
  unfold updateCellOutput
  rw [mapNotebooksM_ok _ (fun nb =>
    if nb.id = notebookId then
      { nb with cells := nb.cells.map (Option.map (fun c =>
        if c.id = cellId then
          { c with output := [{ id := freshId, type := msg.type, content := msg.content, timestamp := msg.timestamp }] }
        else c)) }
    else nb)]
  · rfl
  · intro nb hnb
    by_cases hid : nb.id = notebookId
    · obtain ⟨cs, hcs⟩ := hwf nb hnb hid
      simp [hid, hcs, jsMapCells_map_some, Except.map, List.map_map, Function.comp_def]
    · simp [hid]

theorem deleteCell_ok (st : NotebookState) (notebookId cellId : String) (now : Nat)
    (hwf : ∀ nb ∈ st.notebooks, nb.id = notebookId → ∃ cs : List Cell, nb.cells = cs.map some) :
    deleteCell st notebookId cellId now =
      .ok { st with notebooks := st.notebooks.map (fun nb =>
        if nb.id = notebookId then
          { nb with
            cells := nb.cells.filter (fun oc => Option.all (fun c => c.id != cellId) oc)
            updatedAt := now }
        else nb) } := by
  unfold deleteCell
  rw [mapNotebooksM_ok _ (fun nb =>
    if nb.id = notebookId then
      { nb with
        cells := nb.cells.filter (fun oc => Option.all (fun c => c.id != cellId) oc)
        updatedAt := now }
    else nb)]
  · rfl
  · intro nb hnb
    by_cases hid : nb.id = notebookId
    · obtain ⟨cs, hcs⟩ := hwf nb hnb hid
      rw [hcs, jsFilterCells_map_some]
      simp [hid, Except.map, List.filter_map, Function.comp_def]
    · simp [hid]

/-! ### Splice lemmas for `reorderCells` on in-range indices. -/

theorem jsReorder_map_some (cs : List Cell) (f t : Nat) (hf : f < cs.length) :
    jsReorder (cs.map some) f t = (specReorder cs f t).map some := by
  have hget : cs[f]? = some cs[f] := List.getElem?_eq_getElem hf
  unfold jsReorder specReorder
  rw [List.getElem?_map, hget]
  simp only [Option.map_some', Option.some_bind, id_eq]
  rw [← List.map_take, ← List.map_drop, ← List.map_append, ← List.map_take, ← List.map_drop]
  simp [List.map_append]

theorem splice_decompose (cs : List Cell) (f : Nat) (hf : f < cs.length) :
    cs = cs.take f ++ cs[f] :: cs.drop (f + 1) := by
  conv_lhs => rw [← List.take_append_drop f cs]
  rw [List.drop_eq_getElem_cons hf]

theorem specReorder_perm (cs : List Cell) (f t : Nat) (hf : f < cs.length) :
    List.Perm (specReorder cs f t) cs := by
  have hget : cs[f]? = some cs[f] := List.getElem?_eq_getElem hf
  unfold specReorder
  rw [hget]
  have h1 : List.Perm
      ((cs.take f ++ cs.drop (f + 1)).take t ++ cs[f] :: (cs.take f ++ cs.drop (f + 1)).drop t)
      (cs[f] :: (cs.take f ++ cs.drop (f + 1))) := by
    have := @List.perm_middle _ cs[f]
      ((cs.take f ++ cs.drop (f + 1)).take t)
      ((cs.take f ++ cs.drop (f + 1)).drop t)
    rw [List.take_append_drop] at this
    exact this
  have h2 : List.Perm cs (cs[f] :: (cs.take f ++ cs.drop (f + 1))) := by
    conv_lhs => rw [splice_decompose cs f hf]
    exact List.perm_middle
  exact h1.trans h2.symm

theorem specReorder_same (cs : List Cell) (f : Nat) (hf : f < cs.length) :
    specReorder cs f f = cs := by
  have hget : cs[f]? = some cs[f] := List.getElem?_eq_getElem hf
  have hlen : (cs.take f).length = f := by
    simp [List.length_take]
    omega
  have htake : (cs.take f ++ cs.drop (f + 1)).take f = cs.take f := by
    rw [List.take_append_of_le_length (le_of_eq hlen.symm), List.take_take]
    simp
  have hdrop : (cs.take f ++ cs.drop (f + 1)).drop f = cs.drop (f + 1) := by
    rw [List.drop_append_of_le_length (le_of_eq hlen.symm),
      List.drop_eq_nil_of_le (le_of_eq hlen), List.nil_append]
  unfold specReorder
  rw [hget]
  show (cs.take f ++ cs.drop (f + 1)).take f ++ cs[f] :: (cs.take f ++ cs.drop (f + 1)).drop f = cs
  rw [htake, hdrop]
  exact (splice_decompose cs f hf).symm

theorem except_bind_ok {α β : Type _} (a : α) (f : α → Except JsError β) :
    (Except.ok a >>= f) = f a := rfl

/-- Sequencing two `updateCell` calls on the same cell id fuses into one
per-cell update, provided the first update does not rewrite cell ids. -/
theorem updateCell_twice (st : NotebookState) (notebookId cellId : String)
    (u1 u2 : CellUpdates) (now1 now2 : Nat)
    (hwf : ∀ nb ∈ st.notebooks, nb.id = notebookId → ∃ cs : List Cell, nb.cells = cs.map some)
    (hid1 : ∀ c : Cell, (applyCellUpdates c u1).id = c.id) :
    (updateCell st notebookId cellId u1 now1 >>= fun st1 =>
      updateCell st1 notebookId cellId u2 now2) =
      .ok (updateCellState st notebookId
        (fun c => if c.id = cellId then applyCellUpdates (applyCellUpdates c u1) u2 else c) now2) := by
  rw [updateCell_ok st notebookId cellId u1 now1 hwf, except_bind_ok,
    updateCell_ok _ notebookId cellId u2 now2
      (updateCellState_wf st notebookId _ now1 hwf),
    updateCellState_comp]
  refine congrArg (fun g => Except.ok (updateCellState st notebookId g now2)) ?_
  funext c
  dsimp only
  by_cases hc : c.id = cellId
  · rw [if_pos hc, if_pos ((hid1 c).trans hc), if_pos hc]
  · rw [if_neg hc, if_neg hc, if_neg hc]

/-- Unfolding equation: the notebooks left after `deleteNotebook`. -/
theorem deleteNotebook_notebooks (st : NotebookState) (id : String) :
    (deleteNotebook st id).notebooks = st.notebooks.filter (fun nb => nb.id != id) := rfl

/-- Unfolding equation: the active-notebook pointer after `deleteNotebook`. -/
theorem deleteNotebook_activeNotebookId (st : NotebookState) (id : String) :
    (deleteNotebook st id).activeNotebookId =
      if st.activeNotebookId = some id
      then jsOrNull (((st.notebooks.filter (fun nb => nb.id != id)).head?).map Notebook.id)
      else st.activeNotebookId := rfl

/-- Unfolding equation: the active-cell pointer after `deleteNotebook` is
recomputed from the (new) active notebook, whatever was there before. -/
theorem deleteNotebook_activeCellId (st : NotebookState) (id : String) :
    (deleteNotebook st id).activeCellId =
      match (deleteNotebook st id).activeNotebookId with
      | some aid =>
          if aid = "" then none
          else firstCellIdIn (st.notebooks.filter (fun nb => nb.id != id)) aid
      | none => none := rfl

/-- Special case of `deleteNotebook_activeCellId` when the new active
pointer is known to be set. -/
theorem deleteNotebook_activeCellId_some (st : NotebookState) (id aid : String)
    (hA : (deleteNotebook st id).activeNotebookId = some aid) :
    (deleteNotebook st id).activeCellId =
      if aid = "" then none
      else firstCellIdIn (st.notebooks.filter (fun nb => nb.id != id)) aid := by
  rw [deleteNotebook_activeCellId, hA]

/-- Special case of `deleteNotebook_activeCellId` when the new active
pointer is known to be unset. -/
theorem deleteNotebook_activeCellId_none (st : NotebookState) (id : String)
    (hA : (deleteNotebook st id).activeNotebookId = none) :
    (deleteNotebook st id).activeCellId = none := by
  rw [deleteNotebook_activeCellId, hA]

/-! ### Claim theorems -/

/-- C1: for every notebook in the store and every pair of indices that are
valid positions in its cell sequence, `reorderCells` relocates the cell at
`fromIndex` to position `toIndex` of the sequence after removal
(splice-out-then-splice-in, `specReorder`); the multiset of cells — hence of
cell ids and contents — is preserved (the very same cell objects move), and
`fromIndex = toIndex` leaves the cell sequence unchanged. -/
theorem reorderCells_valid_move (st : NotebookState) (nb : Notebook) (cs : List Cell)
    (f t now : Nat) (_hmem : nb ∈ st.notebooks) (hcs : nb.cells = cs.map some)
    (hf : f < cs.length) (ht : t < cs.length) :
    (reorderCells st nb.id f t now).notebooks =
      st.notebooks.map (fun n =>
        if n.id = nb.id then { n with cells := jsReorder n.cells f t, updatedAt := now } else n)
    ∧ jsReorder nb.cells f t = (specReorder cs f t).map some
    ∧ List.Perm (specReorder cs f t) cs
    ∧ List.Perm ((specReorder cs f t).map Cell.id) (cs.map Cell.id)
    ∧ (f = t → jsReorder nb.cells f t = nb.cells) := by
  refine ⟨rfl, ?_, specReorder_perm cs f t hf, (specReorder_perm cs f t hf).map Cell.id, ?_⟩
  · rw [hcs]
    exact jsReorder_map_some cs f t hf
  · intro hft
    subst hft
    rw [hcs, jsReorder_map_some cs f f hf, specReorder_same cs f hf]

/-- C1 witness: moving index 0 to index 2 in `[A,B,C,D]` yields
`[B,C,A,D]`. -/
theorem reorderCells_valid_move_witness :
    jsReorder nbFour.cells 0 2 = (specReorder [cellA, cellB, cellC, cellD] 0 2).map some
    ∧ specReorder [cellA, cellB, cellC, cellD] 0 2 = [cellB, cellC, cellA, cellD]
    ∧ List.Perm (specReorder [cellA, cellB, cellC, cellD] 0 2) [cellA, cellB, cellC, cellD] := by
  have h := reorderCells_valid_move stFour nbFour [cellA, cellB, cellC, cellD] 0 2 5
    (by decide) rfl (by decide) (by decide)
  exact ⟨h.2.1, by decide, h.2.2.1⟩

/-- C6 (code bug evidence): `reorderCells` performs no bounds check and has
no error path; with `fromIndex = cellCount` (out of range on a one-cell
notebook) it still mutates the store, splicing an `undefined` hole into the
cell array and bumping `updatedAt`, instead of failing with `OutOfRange`
and leaving the state unchanged. -/
theorem reorderCells_out_of_range_corrupts :
    jsReorder [some (mkCell "c6" "q")] 1 0 = [none, some (mkCell "c6" "q")]
    ∧ reorderCells stOne "n6" 1 0 9 = stOneCorrupt
    ∧ reorderCells stOne "n6" 1 0 9 ≠ stOne := by decide

/-- C7 (amended): `setActiveNotebook` is a blind pointer write: it sets
`activeNotebookId` to the given id without any existence check (so an
unknown id leaves a dangling pointer rather than failing with `NotFound` or
being a no-op), and it never touches `activeCellId` or any other field. -/
theorem setActiveNotebook_blind_set (st : NotebookState) (id : String) :
    (setActiveNotebook st id).activeNotebookId = some id
    ∧ (setActiveNotebook st id).activeCellId = st.activeCellId
    ∧ (setActiveNotebook st id).notebooks = st.notebooks
    ∧ (setActiveNotebook st id).webSocketConnections = st.webSocketConnections
    ∧ (setActiveNotebook st id).isLoading = st.isLoading
    ∧ (setActiveNotebook st id).error = st.error :=
  ⟨rfl, rfl, rfl, rfl, rfl, rfl⟩

/-- C7 counterexample: on the empty store, `setActiveNotebook "missing"`
neither fails nor is a no-op — it changes the state, and the resulting
`activeNotebookId` references no existing notebook. -/
theorem setActiveNotebook_no_check_counterexample :
    setActiveNotebook initialState "missing" ≠ initialState
    ∧ (setActiveNotebook initialState "missing").activeNotebookId = some "missing"
    ∧ (setActiveNotebook initialState "missing").notebooks = [] := by decide

/-- C8 (amended): `createNotebook` performs no name validation and has no
failure path: for any name whatsoever — including names empty after
trimming — it appends a new notebook; the blank-name rejection lives only in
the sidebar's `handleCreateNotebook`, which leaves the store untouched when
the trimmed input is empty and otherwise calls `createNotebook` with the
trimmed name. -/
theorem createNotebook_no_validation (st : NotebookState) (name nbId cellDefId : String) (now : Nat) :
    (createNotebook st name nbId cellDefId now).notebooks =
      st.notebooks ++
        [{ id := nbId
           name := name
           cells := [some (createDefaultCell cellDefId)]
           createdAt := now
           updatedAt := now
           kernelId := none
           kernelStatus := .idle }]
    ∧ (jsTrim name = "" → handleCreateNotebook st name nbId cellDefId now = st)
    ∧ (jsTrim name ≠ "" →
        handleCreateNotebook st name nbId cellDefId now = createNotebook st (jsTrim name) nbId cellDefId now) := by
  refine ⟨rfl, fun h => ?_, fun h => ?_⟩
  · simp [handleCreateNotebook, h]
  · simp [handleCreateNotebook, h]

/-- C8 witness: the all-blank input `"   "` is rejected by the sidebar
handler (store untouched), while the store-level `createNotebook` happily
creates a notebook even for the empty name. -/
theorem createNotebook_no_validation_witness :
    handleCreateNotebook initialState "   " "n8" "c8" 0 = initialState
    ∧ (createNotebook initialState "" "n8b" "c8b" 0).notebooks.length = 1 := by
  have h := createNotebook_no_validation initialState "   " "n8" "c8" 0
  have h2 := createNotebook_no_validation initialState "" "n8b" "c8b" 0
  refine ⟨h.2.1 (by decide), ?_⟩
  rw [h2.1]
  rfl

/-- C8 counterexample: for the blank name `"   "` (empty after trimming),
`createNotebook` does not fail with `InvalidArgument` leaving the state
unmutated — it returns normally and mutates the store. -/
theorem createNotebook_blank_counterexample :
    jsTrim "   " = ""
    ∧ createNotebook initialState "   " "n8x" "c8x" 0 =
        { initialState with
          notebooks :=
            [{ id := "n8x"
               name := "   "
               cells := [some (createDefaultCell "c8x")]
               createdAt := 0
               updatedAt := 0
               kernelId := none
               kernelStatus := .idle }]
          activeNotebookId := some "n8x"
          activeCellId := some "c8x" }
    ∧ createNotebook initialState "   " "n8x" "c8x" 0 ≠ initialState := by decide

/-- C9: for every non-empty name, `createNotebook` appends a new notebook
containing exactly one cell — an empty idle code cell with no execution
count and no output — and makes that notebook and that cell active (the
hypothesis `cellDefId ≠ ""` records that `generateId` produces a non-empty,
hence truthy, id). -/
theorem createNotebook_creates_active_default (st : NotebookState)
    (name nbId cellDefId : String) (now : Nat)
    (_hname : name ≠ "") (hcid : cellDefId ≠ "") :
    (createNotebook st name nbId cellDefId now).notebooks =
      st.notebooks ++
        [{ id := nbId
           name := name
           cells := [some (createDefaultCell cellDefId)]
           createdAt := now
           updatedAt := now
           kernelId := none
           kernelStatus := .idle }]
    ∧ createDefaultCell cellDefId =
        { id := cellDefId
          type := .code
          content := ""
          output := []
          status := .idle
          executionCount := none
          metadata := none }
    ∧ (createNotebook st name nbId cellDefId now).activeNotebookId = some nbId
    ∧ (createNotebook st name nbId cellDefId now).activeCellId = some cellDefId := by
  refine ⟨rfl, rfl, rfl, ?_⟩
  simp [createNotebook, firstCellId, jsOrNull, strOrNull, createDefaultCell, hcid]

/-- C9 witness: creating `"Experiment 1"` on the empty store yields one
notebook, active, with its single default cell active. -/
theorem createNotebook_creates_active_default_witness :
    (createNotebook initialState "Experiment 1" "n9" "c9" 3).activeNotebookId = some "n9"
    ∧ (createNotebook initialState "Experiment 1" "n9" "c9" 3).activeCellId = some "c9"
    ∧ (createNotebook initialState "Experiment 1" "n9" "c9" 3).notebooks.length = 1 := by
  have h := createNotebook_creates_active_default initialState "Experiment 1" "n9" "c9" 3
    (by decide) (by decide)
  refine ⟨h.2.2.1, h.2.2.2, ?_⟩
  rw [h.1]
  rfl

/-- C2: `updateCellOutput` replaces the matching cell's entire output
history with a one-element sequence carrying the arriving event's kind,
payload and timestamp (under a fresh output id), no matter how many entries
it held before; when the notebook id is unknown, or the cell id matches no
cell, the call returns the state unchanged — it neither raises nor
resurrects anything.  The well-formedness hypothesis says the targeted
notebook's cell array has no `undefined` holes, which holds in every state
the store's own operations produce. -/
theorem updateCellOutput_replaces_and_drops (st : NotebookState) (notebookId cellId : String)
    (msg : WebSocketMessage) (freshId : String)
    (hwf : ∀ nb ∈ st.notebooks, nb.id = notebookId → ∃ cs : List Cell, nb.cells = cs.map some) :
    updateCellOutput st notebookId cellId msg freshId =
      .ok { st with notebooks := st.notebooks.map (fun nb =>
        if nb.id = notebookId then
          { nb with cells := nb.cells.map (Option.map (fun c =>
            if c.id = cellId then
              { c with output := [{ id := freshId, type := msg.type, content := msg.content, timestamp := msg.timestamp }] }
            else c)) }
        else nb) }
    ∧ ((∀ nb ∈ st.notebooks, nb.id ≠ notebookId) →
        updateCellOutput st notebookId cellId msg freshId = .ok st)
    ∧ ((∀ nb ∈ st.notebooks, ∀ c : Cell, some c ∈ nb.cells → c.id ≠ cellId) →
        updateCellOutput st notebookId cellId msg freshId = .ok st) := by
  have hmain := updateCellOutput_ok st notebookId cellId msg freshId hwf
  refine ⟨hmain, ?_, ?_⟩
  · intro hno
    rw [hmain]
    have hmap : st.notebooks.map (fun nb =>
        if nb.id = notebookId then
          { nb with cells := nb.cells.map (Option.map (fun c =>
            if c.id = cellId then
              { c with output := [{ id := freshId, type := msg.type, content := msg.content, timestamp := msg.timestamp }] }
            else c)) }
        else nb) = st.notebooks := by
      apply map_id_of_forall
      intro nb hnb
      simp [hno nb hnb]
    rw [hmap]
  · intro hnocell
    rw [hmain]
    have hmap : st.notebooks.map (fun nb =>
        if nb.id = notebookId then
          { nb with cells := nb.cells.map (Option.map (fun c =>
            if c.id = cellId then
              { c with output := [{ id := freshId, type := msg.type, content := msg.content, timestamp := msg.timestamp }] }
            else c)) }
        else nb) = st.notebooks := by
      apply map_id_of_forall
      intro nb hnb
      by_cases hid : nb.id = notebookId
      · have hcells : nb.cells.map (Option.map (fun c =>
            if c.id = cellId then
              { c with output := [{ id := freshId, type := msg.type, content := msg.content, timestamp := msg.timestamp }] }
            else c)) = nb.cells := by
          apply map_id_of_forall
          intro oc hoc
          cases oc with
          | none => rfl
          | some c =>
              have := hnocell nb hnb c hoc
              simp [this]
        rw [if_pos hid, hcells]
      · simp [hid]
    rw [hmap]

/-- C2 witness: a cell holding two old output entries has them replaced by
the single arriving event; the same event sent to an unknown notebook id
leaves the state untouched. -/
theorem updateCellOutput_replaces_and_drops_witness :
    cellWithOutputs.output.length = 2
    ∧ updateCellOutput stOut "nb2" "c2" msgNew "o9" = .ok stOutAfter
    ∧ updateCellOutput stOut "missing" "c2" msgNew "o9" = .ok stOut := by
  have h := updateCellOutput_replaces_and_drops stOut "nb2" "c2" msgNew "o9"
    (by
      intro nb hnb _
      have hnb' : nb = nbOut := by simpa [stOut, mkState] using hnb
      subst hnb'
      exact ⟨[cellWithOutputs], rfl⟩)
  have h2 := updateCellOutput_replaces_and_drops stOut "missing" "c2" msgNew "o9"
    (by
      intro nb hnb hid
      have hnb' : nb = nbOut := by simpa [stOut, mkState] using hnb
      subst hnb'
      exact ⟨[cellWithOutputs], rfl⟩)
  refine ⟨by decide, ?_, h2.2.1 (by decide)⟩
  rw [h.1]
  decide

/-- C5 (amended): `deleteCell` removes exactly the cells bearing the given
id from the named notebook, preserving the order of the remainder, and
bumps that notebook's `updatedAt`; it never modifies `activeCellId` or
`activeNotebookId` — in particular, deleting the active cell leaves the
active-cell pointer dangling rather than clearing it.  When the notebook id
is unknown the call is a complete no-op. -/
theorem deleteCell_removes_without_clearing (st : NotebookState) (notebookId cellId : String) (now : Nat)
    (hwf : ∀ nb ∈ st.notebooks, nb.id = notebookId → ∃ cs : List Cell, nb.cells = cs.map some) :
    deleteCell st notebookId cellId now =
      .ok { st with notebooks := st.notebooks.map (fun nb =>
        if nb.id = notebookId then
          { nb with
            cells := nb.cells.filter (fun oc => Option.all (fun c => c.id != cellId) oc)
            updatedAt := now }
        else nb) }
    ∧ (∀ st', deleteCell st notebookId cellId now = .ok st' →
        st'.activeCellId = st.activeCellId ∧ st'.activeNotebookId = st.activeNotebookId)
    ∧ ((∀ nb ∈ st.notebooks, nb.id ≠ notebookId) → deleteCell st notebookId cellId now = .ok st) := by
  have hmain := deleteCell_ok st notebookId cellId now hwf
  refine ⟨hmain, ?_, ?_⟩
  · intro st' h'
    rw [hmain] at h'
    have heq := Except.ok.inj h'
    rw [← heq]
    exact ⟨rfl, rfl⟩
  · intro hno
    rw [hmain]
    have hmap : st.notebooks.map (fun nb =>
        if nb.id = notebookId then
          { nb with
            cells := nb.cells.filter (fun oc => Option.all (fun c => c.id != cellId) oc)
            updatedAt := now }
        else nb) = st.notebooks := by
      apply map_id_of_forall
      intro nb hnb
      simp [hno nb hnb]
    rw [hmap]

/-- C5 counterexample: deleting the active cell does NOT clear
`activeCellId`; the pointer keeps naming the removed cell. -/
theorem deleteCell_leaves_active_cell_counterexample :
    stDel.activeCellId = some "c5"
    ∧ deleteCell stDel "n5" "c5" 7 = .ok stDelAfter
    ∧ stDelAfter.activeCellId = some "c5"
    ∧ stDelAfter.notebooks = [{ nbDel with cells := [], updatedAt := 7 }] := by decide

/-- C5 witness: the amended theorem applied to the concrete one-cell
store. -/
theorem deleteCell_removes_without_clearing_witness :
    deleteCell stDel "n5" "c5" 7 = .ok stDelAfter
    ∧ stDelAfter.activeCellId = stDel.activeCellId := by
  have h := deleteCell_removes_without_clearing stDel "n5" "c5" 7
    (by
      intro nb hnb _
      have hnb' : nb = nbDel := by simpa [stDel, mkState] using hnb
      subst hnb'
      exact ⟨[mkCell "c5" "z"], rfl⟩)
  have hmain : deleteCell stDel "n5" "c5" 7 = .ok stDelAfter := by
    rw [h.1]
    decide
  exact ⟨hmain, (h.2.1 stDelAfter hmain).1⟩

/-- C10 (amended): as long as the deleted id is not the currently active id,
`deleteNotebook id` removes exactly the notebooks bearing that id and leaves
`activeNotebookId`, connections, loading flag and error untouched; for an
unknown id the notebook list itself is unchanged.  However `activeCellId` is
NOT left unchanged: it is unconditionally recomputed to the first cell of
the active notebook (or `none`), so the call is not a no-op in general. -/
theorem deleteNotebook_frame (st : NotebookState) (id : String)
    (hnotactive : st.activeNotebookId ≠ some id) :
    (deleteNotebook st id).notebooks = st.notebooks.filter (fun nb => nb.id != id)
    ∧ (deleteNotebook st id).activeNotebookId = st.activeNotebookId
    ∧ (deleteNotebook st id).activeCellId =
        (match st.activeNotebookId with
         | some aid =>
             if aid = "" then none
             else firstCellIdIn (st.notebooks.filter (fun nb => nb.id != id)) aid
         | none => none)
    ∧ (deleteNotebook st id).webSocketConnections = st.webSocketConnections
    ∧ (deleteNotebook st id).isLoading = st.isLoading
    ∧ (deleteNotebook st id).error = st.error
    ∧ ((∀ nb ∈ st.notebooks, nb.id ≠ id) → (deleteNotebook st id).notebooks = st.notebooks) := by
  have hA : (deleteNotebook st id).activeNotebookId = st.activeNotebookId := by
    rw [deleteNotebook_activeNotebookId, if_neg hnotactive]
  refine ⟨deleteNotebook_notebooks st id, hA, ?_, rfl, rfl, rfl, ?_⟩
  · rw [deleteNotebook_activeCellId, hA]
  · intro hno
    rw [deleteNotebook_notebooks]
    apply List.filter_eq_self.mpr
    intro nb hnb
    simp [hno nb hnb]

/-- C10 counterexample: `deleteNotebook` with an id that matches no notebook
is not a no-op — it resets `activeCellId` from the second cell of the
active notebook to its first cell. -/
theorem deleteNotebook_not_noop_counterexample :
    (∀ nb ∈ stTen.notebooks, nb.id ≠ "zzz")
    ∧ (deleteNotebook stTen "zzz").notebooks = stTen.notebooks
    ∧ stTen.activeCellId = some "x2"
    ∧ (deleteNotebook stTen "zzz").activeCellId = some "x1"
    ∧ deleteNotebook stTen "zzz" ≠ stTen := by decide

/-- C10 witness: the frame theorem applied to the two-cell store and an
unknown id. -/
theorem deleteNotebook_frame_witness :
    (deleteNotebook stTen "zzz").activeNotebookId = stTen.activeNotebookId
    ∧ (deleteNotebook stTen "zzz").notebooks = stTen.notebooks := by
  have h := deleteNotebook_frame stTen "zzz" (by decide)
  exact ⟨h.2.1, h.2.2.2.2.2.2 (by decide)⟩

/-- C4 (amended): for every store state whose `activeNotebookId` is unset or
references an existing notebook, `deleteNotebook id` again leaves
`activeNotebookId` unset or referencing an existing notebook; when the
deleted notebook was active the pointer is re-targeted to the first
remaining notebook in creation order (`|| null` on its id); whatever
`activeCellId` becomes, it references a cell of the new active notebook or
is `none`; and deleting the only notebook leaves the active pointers unset
and `getActiveCell` returning `null`.  (The invariant hypothesis is needed:
`setActiveNotebook` can produce states with a dangling pointer, for which
the original claim fails — see the counterexample.) -/
theorem deleteNotebook_active_pointer (st : NotebookState) (nid : String)
    (hinv : ∀ aid, st.activeNotebookId = some aid → ∃ nb ∈ st.notebooks, nb.id = aid) :
    (∀ aid, (deleteNotebook st nid).activeNotebookId = some aid →
       ∃ nb ∈ (deleteNotebook st nid).notebooks, nb.id = aid)
    ∧ (st.activeNotebookId = some nid →
       (deleteNotebook st nid).activeNotebookId =
         jsOrNull (((st.notebooks.filter (fun nb => nb.id != nid)).head?).map Notebook.id))
    ∧ (∀ cid, (deleteNotebook st nid).activeCellId = some cid →
       ∃ nb ∈ (deleteNotebook st nid).notebooks,
         (deleteNotebook st nid).activeNotebookId = some nb.id
         ∧ ∃ c : Cell, some c ∈ nb.cells ∧ c.id = cid)
    ∧ (∀ nb₀, st.notebooks = [nb₀] → nb₀.id = nid →
       (deleteNotebook st nid).activeNotebookId = none
       ∧ (deleteNotebook st nid).activeCellId = none
       ∧ getActiveCell (deleteNotebook st nid) = .ok none) := by
  refine ⟨?_, ?_, ?_, ?_⟩
  · intro aid h
    rw [deleteNotebook_activeNotebookId] at h
    by_cases hcase : st.activeNotebookId = some nid
    · rw [if_pos hcase] at h
      cases hhead : (st.notebooks.filter (fun nb => nb.id != nid)).head? with
      | none =>
          rw [hhead] at h
          simp [jsOrNull] at h
      | some nb' =>
          rw [hhead] at h
          have hid' : nb'.id = aid := by
            by_cases hz : nb'.id = ""
            · simp [jsOrNull, strOrNull, hz] at h
            · simpa [jsOrNull, strOrNull, hz] using h
          refine ⟨nb', ?_, hid'⟩
          rw [deleteNotebook_notebooks]
          exact List.mem_of_mem_head? hhead
    · rw [if_neg hcase] at h
      obtain ⟨nb, hnb, hid'⟩ := hinv aid h
      refine ⟨nb, ?_, hid'⟩
      rw [deleteNotebook_notebooks, List.mem_filter]
      refine ⟨hnb, ?_⟩
      have haidne : aid ≠ nid := by
        intro he
        exact hcase (by rw [h, he])
      simp only [bne_iff_ne, ne_eq, decide_not]
      simp [hid', haidne]
  · intro hcase
    rw [deleteNotebook_activeNotebookId, if_pos hcase]
  · intro cid h
    cases hAval : (deleteNotebook st nid).activeNotebookId with
    | none =>
        rw [deleteNotebook_activeCellId_none st nid hAval] at h
        exact absurd h (by simp)
    | some aid =>
        rw [deleteNotebook_activeCellId_some st nid aid hAval] at h
        by_cases hz : aid = ""
        · rw [if_pos hz] at h
          exact absurd h (by simp)
        · rw [if_neg hz] at h
          unfold firstCellIdIn at h
          cases hfind : (st.notebooks.filter (fun nb => nb.id != nid)).find? (fun nb => nb.id == aid) with
          | none =>
              rw [hfind] at h
              simp [jsOrNull] at h
          | some nb =>
              rw [hfind] at h
              simp only [Option.some_bind] at h
              cases hfc : firstCellId nb.cells with
              | none =>
                  rw [hfc] at h
                  simp [jsOrNull] at h
              | some s =>
                  rw [hfc] at h
                  have hs : s = cid := by
                    by_cases hz2 : s = ""
                    · simp [jsOrNull, strOrNull, hz2] at h
                    · simpa [jsOrNull, strOrNull, hz2] using h
                  have hmem : nb ∈ st.notebooks.filter (fun nb => nb.id != nid) :=
                    List.mem_of_find?_eq_some hfind
                  have hnbid : nb.id = aid := by
                    have hp := List.find?_some hfind
                    exact eq_of_beq hp
                  unfold firstCellId at hfc
                  cases hh : nb.cells.head?.bind id with
                  | none =>
                      rw [hh] at hfc
                      simp at hfc
                  | some c =>
                      rw [hh] at hfc
                      simp only [Option.map_some', Option.some.injEq] at hfc
                      refine ⟨nb, ?_, ?_, c, ?_, by rw [hfc, hs]⟩
                      · rw [deleteNotebook_notebooks]
                        exact hmem
                      · rw [hnbid]
                      · cases hcl : nb.cells with
                        | nil =>
                            rw [hcl] at hh
                            simp at hh
                        | cons oc rest =>
                            rw [hcl] at hh
                            simp only [List.head?_cons, Option.some_bind, id_eq] at hh
                            rw [hh]
                            exact List.mem_cons_self _ _
  · intro nb₀ hnb0 hid0
    have hfilter : st.notebooks.filter (fun nb => nb.id != nid) = [] := by
      rw [hnb0]
      simp [List.filter, hid0]
    have hAnone : (deleteNotebook st nid).activeNotebookId = none := by
      rw [deleteNotebook_activeNotebookId]
      by_cases hcase : st.activeNotebookId = some nid
      · rw [if_pos hcase, hfilter]
        rfl
      · rw [if_neg hcase]
        cases hact : st.activeNotebookId with
        | none => rfl
        | some aid =>
            obtain ⟨nb, hnb, hidnb⟩ := hinv aid hact
            rw [hnb0] at hnb
            have hnb' : nb = nb₀ := List.mem_singleton.mp hnb
            subst hnb'
            exact absurd (show st.activeNotebookId = some nid by rw [hact, ← hidnb, hid0]) hcase
    refine ⟨hAnone, ?_, ?_⟩
    · rw [deleteNotebook_activeCellId, hAnone]
    · simp [getActiveCell, getActiveNotebook, hAnone]

/-- C4 counterexample: from a state whose active pointer already dangles
(reachable via `setActiveNotebook "ghost"`), deleting the only notebook
leaves `activeNotebookId = some "ghost"` with an empty notebook list — the
original unconditional claim is false. -/
theorem deleteNotebook_dangling_counterexample :
    stGhost.activeNotebookId = some "ghost"
    ∧ (deleteNotebook stGhost "a").notebooks = []
    ∧ (deleteNotebook stGhost "a").activeNotebookId = some "ghost" := by decide

/-- C4 witness: deleting the active first notebook of a two-notebook store
re-targets both pointers to the remaining notebook and its first cell. -/
theorem deleteNotebook_active_pointer_witness :
    (deleteNotebook stTwo "w1").activeNotebookId =
      jsOrNull (((stTwo.notebooks.filter (fun nb => nb.id != "w1")).head?).map Notebook.id)
    ∧ (deleteNotebook stTwo "w1").activeNotebookId = some "w2"
    ∧ (deleteNotebook stTwo "w1").activeCellId = some "wc2" := by
  have h := deleteNotebook_active_pointer stTwo "w1"
    (by
      intro aid ha
      have haid : aid = "w1" := by simpa [stTwo, mkState] using ha.symm
      subst haid
      exact ⟨nbW1, by simp [stTwo, mkState], rfl⟩)
  exact ⟨h.2.1 (by decide), by decide, by decide⟩

/-- C3: when the trimmed content is non-empty, the run first — synchronously,
before the backend outcome can matter — sets the cell's status to `running`
and clears its output (first conjunct: the exact pre-backend store
mutation), and the whole run resolves without re-throwing, ending with
status `completed` and the execution count of the cell prop incremented by
exactly one when both backend calls resolve, or with status `error` and the
execution count untouched when one rejects; the two outcomes are the two
branches of one deterministic transition, so never both. -/
theorem handleRunCell_lifecycle (st : NotebookState) (notebookId : String) (cell : Cell)
    (localContent : String) (backendOk : Bool) (now1 now2 : Nat)
    (hne : jsTrim localContent ≠ "")
    (hwf : ∀ nb ∈ st.notebooks, nb.id = notebookId → ∃ cs : List Cell, nb.cells = cs.map some) :
    updateCell st notebookId cell.id runningUpdates now1 =
      .ok (updateCellState st notebookId
        (fun c => if c.id = cell.id then { c with status := .running, output := [] } else c) now1)
    ∧ handleRunCell st notebookId cell localContent backendOk now1 now2 =
      .ok (updateCellState st notebookId
        (fun c =>
          if c.id = cell.id then
            { c with
              output := []
              status := if backendOk then .completed else .error
              executionCount := if backendOk then some (cell.executionCount.getD 0 + 1) else c.executionCount }
          else c) now2) := by
  refine ⟨updateCell_ok st notebookId cell.id runningUpdates now1 hwf, ?_⟩
  unfold handleRunCell
  rw [if_neg hne]
  cases backendOk with
  | false =>
      exact updateCell_twice st notebookId cell.id runningUpdates
        { status := some .error } now1 now2 hwf (fun c => rfl)
  | true =>
      exact updateCell_twice st notebookId cell.id runningUpdates
        { status := some .completed
          executionCount := some (some (cell.executionCount.getD 0 + 1)) } now1 now2 hwf (fun c => rfl)

/-- C3 witness: running the concrete one-cell store with content
`"print(1)"`: with a resolving backend the cell ends `completed` with
`executionCount = 1`; with a rejecting backend it ends `error` with the
count untouched — and in both cases the call returns normally. -/
theorem handleRunCell_lifecycle_witness :
    handleRunCell stRun "n1" runCell "print(1)" true 1 2 = .ok stRunDone
    ∧ handleRunCell stRun "n1" runCell "print(1)" false 1 2 = .ok stRunErr := by
  have hwfRun : ∀ nb ∈ stRun.notebooks, nb.id = "n1" → ∃ cs : List Cell, nb.cells = cs.map some := by
    intro nb hnb _
    have hnb' : nb = nbRun := by simpa [stRun, mkState] using hnb
    subst hnb'
    exact ⟨[runCell], rfl⟩
  have ht := handleRunCell_lifecycle stRun "n1" runCell "print(1)" true 1 2 (by decide) hwfRun
  have hf := handleRunCell_lifecycle stRun "n1" runCell "print(1)" false 1 2 (by decide) hwfRun
  constructor
  · rw [ht.2]
    decide
  · rw [hf.2]
    decide

end Workbench
